import Mathlib

/-!
Verification development for the `QueryProof` orchestration layer of a
verifiable-SQL proving system (crates/proofs/src/sql/proof/query_proof.rs).

The file shallowly embeds `QueryProof::new`, `QueryProof::verify`,
`QueryProof::validate_sizes` and `make_transcript`.  The external
collaborators consumed by this layer (the Fiat-Shamir transcript's challenge
function, the sumcheck and inner-product sub-protocols, the proof and
verification builders, accessors, generator derivation, result evaluation)
are not part of this source file; they are modelled as an abstract
environment `QueryProofEnv` of deterministic functions, exactly the shape in
which `query_proof.rs` consumes them.  The transcript itself is modelled as
the free deterministic absorb/challenge state machine: the state is the list
of absorbed entries, and challenges are an arbitrary pure function of the
state held in the environment.
-/

/-- Transcript message labels used by the query-proof protocol
(`MessageLabel` variants referenced by `query_proof.rs`). -/
inductive MessageLabel where
  | QueryProof
  | QueryCommit
  | QueryResultIndexes
  | QueryResultData
  | QuerySumcheckChallenge
  | QueryMleEvaluations
  | QueryMleEvaluationsChallenge
deriving DecidableEq, Repr

/-- Entries absorbed into a Fiat-Shamir transcript.  `S` is the scalar
(field-element) type, `C` the compressed group-element type.  Drawing
challenges also advances the state (the `challenge` entry), as in a
STROBE-style transcript. -/
inductive TEntry (S C : Type) where
  | init (label : MessageLabel)
  | points (label : MessageLabel) (pts : List C)
  | message (label : MessageLabel) (bytes : List Nat)
  | scalars (label : MessageLabel) (s : List S)
  | challenge (label : MessageLabel) (count : Nat)

/-- Little-endian byte serialization of a u64 value, as produced by
`as_byte_slice` on a `&[u64]` (little-endian platform). -/
def u64ToLEBytes (x : Nat) : List Nat :=
  (List.range 8).map (fun i => x / 2 ^ (8 * i) % 256)

/-- Byte serialization of a slice of u64 values (`as_byte_slice`). -/
def u64SliceToBytes (xs : List Nat) : List Nat :=
  xs.flatMap u64ToLEBytes

/-- Dimension descriptor fixing the protocol shape (`ProofCounts`), with the
fields `query_proof.rs` reads. -/
structure ProofCounts where
  sumcheck_variables : Nat
  sumcheck_max_multiplicands : Nat
  table_length : Nat
  intermediate_mles : Nat
  anchored_mles : Nat
  result_columns : Nat
deriving DecidableEq, Repr

/-- Shape of a composite sumcheck polynomial (`CompositePolynomialInfo`). -/
structure CompositePolynomialInfo where
  max_multiplicands : Nat
  num_variables : Nat
deriving DecidableEq, Repr

/-- Residual sumcheck claim (`Subclaim`): an evaluation point together with
the expected evaluation of the polynomial at that point. -/
structure Subclaim (S : Type) where
  evaluation_point : List S
  expected_evaluation : S

/-- Modelled from the spec: the error type `ProofError` of this layer is not
part of the given source; per the spec's error-handling design there is a
single error kind at this layer, `VerificationError`, and every failure of
`verify` (including those propagated from the sub-protocols) carries it. -/
inductive ProofError where
  | VerificationError
deriving DecidableEq, Repr

/-- Serialized query result (`ProvableQueryResult`): declared column count,
column indexes, and raw column data bytes. -/
structure ProvableQueryResult where
  num_columns : Nat
  indexes : List Nat
  data : List Nat
deriving DecidableEq, Repr

/-- Modelled from the spec: the environment of external collaborators that
`query_proof.rs` consumes as black boxes — curve/scalar arithmetic, the
transcript challenge function, the sumcheck and inner-product sub-protocols,
the proof and verification builders, generator derivation, and result
conversion.  Each field has exactly the signature at which the source calls
it; all are pure functions, as the spec's boundary contracts require
(deterministic, no external state).  The fields `polyEvalAtPoint`, `ipCommit`
and `ipEval` name the semantic quantities (true polynomial evaluation,
Pedersen vector commitment, inner product) used to state the sub-protocols'
spec contracts. -/
structure QueryProofEnv where
  Scalar : Type
  Point : Type
  Compressed : Type
  SumcheckProofData : Type
  InnerProductProofData : Type
  Poly : Type
  ProofBuilderT : Type
  VerificationBuilderT : Type
  SumcheckMleEvaluationsT : Type
  QueryExprT : Type
  DataAccessorT : Type
  CommitmentAccessorT : Type
  QueryResultT : Type
  SchemaT : Type
  scalarDecEq : DecidableEq Scalar
  scalarZero : Scalar
  pointIdentity : Point
  pointAdd : Point → Point → Point
  smul : Point → Scalar → Point
  decompress : Compressed → Option Point
  challenge : List (TEntry Scalar Compressed) → MessageLabel → Nat → List Scalar
  proofBuilderNew : ProofCounts → ProofBuilderT
  proverEvaluate : QueryExprT → DataAccessorT → ProofBuilderT → ProofBuilderT
  commitIntermediateMles : ProofBuilderT → List Compressed
  makeProvableQueryResult : ProofBuilderT → ProvableQueryResult
  sumcheckRandomScalarsCount : ProofCounts → Nat
  srsEntrywiseMultipliers : ProofCounts → List Scalar → List Scalar
  srsSubpolynomialMultipliers : ProofCounts → List Scalar → List Scalar
  makeSumcheckPolynomial : ProofBuilderT → ProofCounts → List Scalar → Poly
  sumcheckCreate : List (TEntry Scalar Compressed) → Poly →
      SumcheckProofData × List Scalar × List (TEntry Scalar Compressed)
  sumcheckVerifyWithoutEvaluation : List (TEntry Scalar Compressed) →
      CompositePolynomialInfo → Scalar → SumcheckProofData →
      Except ProofError (Subclaim Scalar × List (TEntry Scalar Compressed))
  computeEvaluationVector : List Scalar → List Scalar
  evaluatePreResultMles : ProofBuilderT → List Scalar → List Scalar
  foldPreResultMles : ProofBuilderT → List Scalar → List Scalar
  getGenerators : Nat → Nat → List Point
  ipCreate : List (TEntry Scalar Compressed) → Point → List Point →
      List Scalar → List Scalar → InnerProductProofData
  ipVerify : List (TEntry Scalar Compressed) → Point → Point → List Point →
      List Scalar → InnerProductProofData → Except ProofError Unit
  resultEvaluate : ProvableQueryResult → List Scalar → Option (List Scalar)
  sumcheckMleEvaluationsNew : Nat → List Scalar → List Scalar → List Scalar →
      List Scalar → SumcheckMleEvaluationsT
  verificationBuilderNew : SumcheckMleEvaluationsT → List Point →
      List Scalar → List Scalar → VerificationBuilderT
  verifierEvaluate : QueryExprT → CommitmentAccessorT →
      VerificationBuilderT → VerificationBuilderT
  builderSumcheckEvaluation : VerificationBuilderT → Scalar
  builderFoldedPreResultCommitment : VerificationBuilderT → Point
  builderFoldedPreResultEvaluation : VerificationBuilderT → Scalar
  makeSchema : Nat → SchemaT
  intoQueryResult : ProvableQueryResult → SchemaT → QueryResultT
  polyEvalAtPoint : Poly → List Scalar → Scalar
  ipCommit : List Point → List Scalar → Point
  ipEval : List Scalar → List Scalar → Scalar

/-- Transcript state: the list of entries absorbed so far. -/
abbrev QueryProofEnv.Transcript (E : QueryProofEnv) : Type :=
  List (TEntry E.Scalar E.Compressed)

/-- The proof for a query (`QueryProof`), with its four public fields in
source order. -/
structure QueryProof (E : QueryProofEnv) where
  commitments : List E.Compressed
  sumcheck_proof : E.SumcheckProofData
  pre_result_mle_evaluations : List E.Scalar
  evaluation_proof : E.InnerProductProofData

/-- Outcome of running `QueryProof::verify`: a panic (failed assertion), an
error return, or a successful result. -/
inductive VerifyOutcome (R : Type) where
  | panic
  | err (e : ProofError)
  | ok (r : R)

/-- Equality test on outcomes up to the result value (used only in
statements). -/
def VerifyOutcome.isErr {R : Type} : VerifyOutcome R → Bool
  | .err _ => true
  | _ => false

/-- Construction of the proof transcript (`make_transcript`): a fresh
transcript under the `QueryProof` label, then the compressed commitments,
then the result's column indexes (as u64 bytes), then the result's raw
data. -/
def make_transcript (E : QueryProofEnv) (commitments : List E.Compressed)
    (result_indexes : List Nat) (result_data : List Nat) : E.Transcript :=
  [TEntry.init MessageLabel.QueryProof,
   TEntry.points MessageLabel.QueryCommit commitments,
   TEntry.message MessageLabel.QueryResultIndexes (u64SliceToBytes result_indexes),
   TEntry.message MessageLabel.QueryResultData result_data]

/-- Size validation (`QueryProof::validate_sizes`). -/
def QueryProof.validate_sizes {E : QueryProofEnv} (self : QueryProof E)
    (counts : ProofCounts) (result : ProvableQueryResult) : Bool :=
  result.num_columns == counts.result_columns
    && self.commitments.length == counts.intermediate_mles
    && self.pre_result_mle_evaluations.length
        == counts.intermediate_mles + counts.anchored_mles

/-- Decompression loop of `verify` (lines 129-137): each commitment must
decompress; the first failure aborts. -/
def decompressAll (E : QueryProofEnv) : List E.Compressed → Option (List E.Point)
  | [] => some []
  | c :: cs =>
    match E.decompress c with
    | none => none
    | some p =>
      match decompressAll E cs with
      | none => none
      | some ps => some (p :: ps)

/-- Sumcheck challenge scalars drawn by the prover (`new`, lines 58-66):
challenges drawn from the fresh transcript bound to the commitments and
result, under the `QuerySumcheckChallenge` label, with count
`SumcheckRandomScalars::count(counts)`. -/
def proverSumcheckChallenges (E : QueryProofEnv) (commitments : List E.Compressed)
    (result_indexes : List Nat) (result_data : List Nat) (counts : ProofCounts) :
    List E.Scalar :=
  E.challenge (make_transcript E commitments result_indexes result_data)
    MessageLabel.QuerySumcheckChallenge (E.sumcheckRandomScalarsCount counts)

/-- Transcript state of the prover after drawing the sumcheck challenges. -/
def proverSumcheckTranscript (E : QueryProofEnv) (commitments : List E.Compressed)
    (result_indexes : List Nat) (result_data : List Nat) (counts : ProofCounts) :
    E.Transcript :=
  make_transcript E commitments result_indexes result_data
    ++ [TEntry.challenge MessageLabel.QuerySumcheckChallenge
          (E.sumcheckRandomScalarsCount counts)]

/-- Sumcheck challenge scalars drawn by the verifier (`verify`, lines
140-144): same construction, over the proof's own commitments and the
supplied result. -/
def verifierSumcheckChallenges (E : QueryProofEnv) (proof : QueryProof E)
    (result : ProvableQueryResult) (counts : ProofCounts) : List E.Scalar :=
  E.challenge (make_transcript E proof.commitments result.indexes result.data)
    MessageLabel.QuerySumcheckChallenge (E.sumcheckRandomScalarsCount counts)

/-- Transcript state of the verifier after drawing the sumcheck challenges. -/
def verifierSumcheckTranscript (E : QueryProofEnv) (proof : QueryProof E)
    (result : ProvableQueryResult) (counts : ProofCounts) : E.Transcript :=
  make_transcript E proof.commitments result.indexes result.data
    ++ [TEntry.challenge MessageLabel.QuerySumcheckChallenge
          (E.sumcheckRandomScalarsCount counts)]

/-- Generator basis derived by the prover (`new`, lines 94-95): `n + 1`
generators starting at offset 0, where `n = 2 ^ counts.sumcheck_variables`. -/
def proverGenerators (E : QueryProofEnv) (counts : ProofCounts) : List E.Point :=
  E.getGenerators (2 ^ counts.sumcheck_variables + 1) 0

/-- Generator basis derived by the verifier (`verify`, lines 202-203): `n + 1`
generators starting at offset 0. -/
def verifierGenerators (E : QueryProofEnv) (counts : ProofCounts) : List E.Point :=
  E.getGenerators (2 ^ counts.sumcheck_variables + 1) 0

/-- Proof builder filled by the query AST (`new`, lines 48-49). -/
def proverBuilder (E : QueryProofEnv) (expr : E.QueryExprT)
    (accessor : E.DataAccessorT) (counts : ProofCounts) : E.ProofBuilderT :=
  E.proverEvaluate expr accessor (E.proofBuilderNew counts)

/-- Verification builder filled by the query AST (`verify`, lines 181-194):
built from the sumcheck MLE evaluations, the decompressed commitments, the
subpolynomial multipliers and the evaluation (folding) challenges, then
passed through `expr.verifier_evaluate`. -/
def verifierBuilder (E : QueryProofEnv) (expr : E.QueryExprT)
    (accessor : E.CommitmentAccessorT) (counts : ProofCounts)
    (dcommitments : List E.Point) (rs evalRs preResultEvals resultEvals
    evaluationVec : List E.Scalar) : E.VerificationBuilderT :=
  E.verifierEvaluate expr accessor
    (E.verificationBuilderNew
      (E.sumcheckMleEvaluationsNew counts.table_length evaluationVec
        (E.srsEntrywiseMultipliers counts rs) preResultEvals resultEvals)
      dcommitments (E.srsSubpolynomialMultipliers counts rs) evalRs)

/-- Commitments to the intermediate MLEs (`new`, line 52). -/
def proverCommitments (E : QueryProofEnv) (expr : E.QueryExprT)
    (accessor : E.DataAccessorT) (counts : ProofCounts) : List E.Compressed :=
  E.commitIntermediateMles (proverBuilder E expr accessor counts)

/-- The provable query result produced by the builder (`new`, line 55). -/
def proverResult (E : QueryProofEnv) (expr : E.QueryExprT)
    (accessor : E.DataAccessorT) (counts : ProofCounts) : ProvableQueryResult :=
  E.makeProvableQueryResult (proverBuilder E expr accessor counts)

/-- The sumcheck challenge scalars drawn by the prover (`new`, lines 58-66). -/
def proverRandomScalars (E : QueryProofEnv) (expr : E.QueryExprT)
    (accessor : E.DataAccessorT) (counts : ProofCounts) : List E.Scalar :=
  proverSumcheckChallenges E (proverCommitments E expr accessor counts)
    (proverResult E expr accessor counts).indexes
    (proverResult E expr accessor counts).data counts

/-- Prover transcript state after the sumcheck challenges (`new`, lines
58-66). -/
def proverT1 (E : QueryProofEnv) (expr : E.QueryExprT)
    (accessor : E.DataAccessorT) (counts : ProofCounts) : E.Transcript :=
  proverSumcheckTranscript E (proverCommitments E expr accessor counts)
    (proverResult E expr accessor counts).indexes
    (proverResult E expr accessor counts).data counts

/-- The composite sumcheck polynomial (`new`, lines 67-68). -/
def proverPoly (E : QueryProofEnv) (expr : E.QueryExprT)
    (accessor : E.DataAccessorT) (counts : ProofCounts) : E.Poly :=
  E.makeSumcheckPolynomial (proverBuilder E expr accessor counts) counts
    (proverRandomScalars E expr accessor counts)

/-- The sumcheck prover run (`new`, lines 71-72): the sumcheck proof, the
evaluation point, and the advanced transcript. -/
def proverSumcheckRun (E : QueryProofEnv) (expr : E.QueryExprT)
    (accessor : E.DataAccessorT) (counts : ProofCounts) :
    E.SumcheckProofData × List E.Scalar × E.Transcript :=
  E.sumcheckCreate (proverT1 E expr accessor counts)
    (proverPoly E expr accessor counts)

/-- The evaluation vector at the sumcheck evaluation point (`new`, line 75). -/
def proverEvaluationVec (E : QueryProofEnv) (expr : E.QueryExprT)
    (accessor : E.DataAccessorT) (counts : ProofCounts) : List E.Scalar :=
  E.computeEvaluationVector (proverSumcheckRun E expr accessor counts).2.1

/-- The pre-result MLE evaluations (`new`, line 76). -/
def proverPreResultEvals (E : QueryProofEnv) (expr : E.QueryExprT)
    (accessor : E.DataAccessorT) (counts : ProofCounts) : List E.Scalar :=
  E.evaluatePreResultMles (proverBuilder E expr accessor counts)
    (proverEvaluationVec E expr accessor counts)

/-- Prover transcript after absorbing the MLE evaluations (`new`, lines
79-82). -/
def proverT3 (E : QueryProofEnv) (expr : E.QueryExprT)
    (accessor : E.DataAccessorT) (counts : ProofCounts) : E.Transcript :=
  (proverSumcheckRun E expr accessor counts).2.2
    ++ [TEntry.scalars MessageLabel.QueryMleEvaluations
          (proverPreResultEvals E expr accessor counts)]

/-- The folding challenge scalars (`new`, lines 86-90). -/
def proverFoldRandomScalars (E : QueryProofEnv) (expr : E.QueryExprT)
    (accessor : E.DataAccessorT) (counts : ProofCounts) : List E.Scalar :=
  E.challenge (proverT3 E expr accessor counts)
    MessageLabel.QueryMleEvaluationsChallenge
    (proverPreResultEvals E expr accessor counts).length

/-- Prover transcript after drawing the folding challenges (`new`, lines
86-90). -/
def proverT4 (E : QueryProofEnv) (expr : E.QueryExprT)
    (accessor : E.DataAccessorT) (counts : ProofCounts) : E.Transcript :=
  proverT3 E expr accessor counts
    ++ [TEntry.challenge MessageLabel.QueryMleEvaluationsChallenge
          (proverPreResultEvals E expr accessor counts).length]

/-- The folded pre-result MLE vector (`new`, line 91). -/
def proverFoldedMle (E : QueryProofEnv) (expr : E.QueryExprT)
    (accessor : E.DataAccessorT) (counts : ProofCounts) : List E.Scalar :=
  E.foldPreResultMles (proverBuilder E expr accessor counts)
    (proverFoldRandomScalars E expr accessor counts)

/-- The product generator: element `n` of the derived basis of `n + 1`
generators (`new`, line 96; identically `verify`, line 204). -/
def proverProductG (E : QueryProofEnv) (counts : ProofCounts) : E.Point :=
  (proverGenerators E counts).getD (2 ^ counts.sumcheck_variables)
    E.pointIdentity

/-- The inner-product proof of the folded MLE evaluations (`new`, lines
97-103). -/
def proverEvaluationProof (E : QueryProofEnv) (expr : E.QueryExprT)
    (accessor : E.DataAccessorT) (counts : ProofCounts) :
    E.InnerProductProofData :=
  E.ipCreate (proverT4 E expr accessor counts) (proverProductG E counts)
    ((proverGenerators E counts).take (2 ^ counts.sumcheck_variables))
    (proverFoldedMle E expr accessor counts)
    (proverEvaluationVec E expr accessor counts)

/-- The proof assembled by the prover (`new`, lines 105-110). -/
def honestProof (E : QueryProofEnv) (expr : E.QueryExprT)
    (accessor : E.DataAccessorT) (counts : ProofCounts) : QueryProof E :=
  ⟨proverCommitments E expr accessor counts,
   (proverSumcheckRun E expr accessor counts).1,
   proverPreResultEvals E expr accessor counts,
   proverEvaluationProof E expr accessor counts⟩

/-- Prover algorithm (`QueryProof::new`, lines 38-112), as the composition
of the per-step definitions above (each a direct transcription of the
corresponding source lines).  The result is `none` exactly when the entry
assertion `counts.sumcheck_variables > 0` fails (a panic); otherwise the
assembled proof and the provable result. -/
def QueryProof.new (E : QueryProofEnv) (expr : E.QueryExprT)
    (accessor : E.DataAccessorT) (counts : ProofCounts) :
    Option (QueryProof E × ProvableQueryResult) :=
  if counts.sumcheck_variables = 0 then none
  else some (honestProof E expr accessor counts,
    proverResult E expr accessor counts)

/-- Final stage of `verify` (lines 201-215): re-derive the generators, form
`expected_commit = folded_pre_result_commitment + product_g *
folded_pre_result_evaluation`, and check the inner-product proof. -/
def verifyEvaluationProof (E : QueryProofEnv) (proof : QueryProof E)
    (counts : ProofCounts) (result : ProvableQueryResult)
    (builder : E.VerificationBuilderT) (t : E.Transcript)
    (evaluationVec : List E.Scalar) : VerifyOutcome E.QueryResultT :=
  let n := 2 ^ counts.sumcheck_variables
  let generators := verifierGenerators E counts
  let productG := generators.getD n E.pointIdentity
  let expectedCommit := E.pointAdd (E.builderFoldedPreResultCommitment builder)
    (E.smul productG (E.builderFoldedPreResultEvaluation builder))
  match E.ipVerify t expectedCommit productG (generators.take n) evaluationVec
      proof.evaluation_proof with
  | Except.error e => VerifyOutcome.err e
  | Except.ok _ =>
    VerifyOutcome.ok (E.intoQueryResult result (E.makeSchema counts.result_columns))

/-- Stage of `verify` after the sumcheck subclaim is obtained (lines
157-199): compute the evaluation vector from the subclaim's point, absorb
the proof's MLE evaluations, draw the folding challenges, evaluate the
result columns, fill the verification builder, and perform the sumcheck
evaluation equality check. -/
def verifyWithSubclaim (E : QueryProofEnv) (proof : QueryProof E)
    (expr : E.QueryExprT) (accessor : E.CommitmentAccessorT)
    (counts : ProofCounts) (result : ProvableQueryResult)
    (dcommitments : List E.Point) (rs : List E.Scalar)
    (subclaim : Subclaim E.Scalar) (t : E.Transcript) :
    VerifyOutcome E.QueryResultT :=
  let evaluationVec := E.computeEvaluationVector subclaim.evaluation_point
  let t1 := t ++ [TEntry.scalars MessageLabel.QueryMleEvaluations
    proof.pre_result_mle_evaluations]
  let evaluationRandomScalars := E.challenge t1
    MessageLabel.QueryMleEvaluationsChallenge
    proof.pre_result_mle_evaluations.length
  let t2 := t1 ++ [TEntry.challenge MessageLabel.QueryMleEvaluationsChallenge
    proof.pre_result_mle_evaluations.length]
  match E.resultEvaluate result evaluationVec with
  | none => VerifyOutcome.err ProofError.VerificationError
  | some resultEvaluations =>
    let builder := verifierBuilder E expr accessor counts dcommitments rs
      evaluationRandomScalars proof.pre_result_mle_evaluations
      resultEvaluations evaluationVec
    match E.scalarDecEq (E.builderSumcheckEvaluation builder)
        subclaim.expected_evaluation with
    | Decidable.isFalse _ => VerifyOutcome.err ProofError.VerificationError
    | Decidable.isTrue _ =>
      verifyEvaluationProof E proof counts result builder t2 evaluationVec

/-- Stage of `verify` after decompression (lines 139-156): rebuild the
transcript, draw the sumcheck challenges, and run the sumcheck
sub-protocol's verification without the final evaluation check, with the
polynomial shape taken from `counts` and a claimed sum of zero. -/
def verifyDecompressed (E : QueryProofEnv) (proof : QueryProof E)
    (expr : E.QueryExprT) (accessor : E.CommitmentAccessorT)
    (counts : ProofCounts) (result : ProvableQueryResult)
    (dcommitments : List E.Point) : VerifyOutcome E.QueryResultT :=
  let rs := verifierSumcheckChallenges E proof result counts
  let t := verifierSumcheckTranscript E proof result counts
  match E.sumcheckVerifyWithoutEvaluation t
      ⟨counts.sumcheck_max_multiplicands, counts.sumcheck_variables⟩
      E.scalarZero proof.sumcheck_proof with
  | Except.error e => VerifyOutcome.err e
  | Except.ok (subclaim, t1) =>
    verifyWithSubclaim E proof expr accessor counts result dcommitments rs
      subclaim t1

/-- Verifier algorithm (`QueryProof::verify`, lines 114-216).  The entry
assertion failure is a panic; the size check and decompression fail closed;
the remaining stages are the chained definitions above. -/
def QueryProof.verify (E : QueryProofEnv) (proof : QueryProof E)
    (expr : E.QueryExprT) (accessor : E.CommitmentAccessorT)
    (counts : ProofCounts) (result : ProvableQueryResult) :
    VerifyOutcome E.QueryResultT :=
  if counts.sumcheck_variables = 0 then VerifyOutcome.panic
  else if proof.validate_sizes counts result then
    match decompressAll E proof.commitments with
    | none => VerifyOutcome.err ProofError.VerificationError
    | some dcommitments =>
      verifyDecompressed E proof expr accessor counts result dcommitments
  else VerifyOutcome.err ProofError.VerificationError

/-- Concrete instantiation of the collaborator environment, used to exhibit
witnesses on concrete inputs.  Scalars and points are integers, compressed
points are `Option Int` (decompression is the identity, so `none` is an
invalid encoding), and all builder and sub-protocol functions are simple
total functions. -/
abbrev toyEnv : QueryProofEnv where
  Scalar := Int
  Point := Int
  Compressed := Option Int
  SumcheckProofData := Unit
  InnerProductProofData := Unit
  Poly := Unit
  ProofBuilderT := Unit
  VerificationBuilderT := Unit
  SumcheckMleEvaluationsT := Unit
  QueryExprT := Unit
  DataAccessorT := Unit
  CommitmentAccessorT := Unit
  QueryResultT := Unit
  SchemaT := Unit
  scalarDecEq := inferInstance
  scalarZero := 0
  pointIdentity := 0
  pointAdd := fun a b => a + b
  smul := fun a b => a * b
  decompress := fun c => c
  challenge := fun _ _ n => List.replicate n 0
  proofBuilderNew := fun _ => ()
  proverEvaluate := fun _ _ b => b
  commitIntermediateMles := fun _ => []
  makeProvableQueryResult := fun _ => ⟨0, [], []⟩
  sumcheckRandomScalarsCount := fun c => c.sumcheck_variables
  srsEntrywiseMultipliers := fun _ rs => rs
  srsSubpolynomialMultipliers := fun _ rs => rs
  makeSumcheckPolynomial := fun _ _ _ => ()
  sumcheckCreate := fun t _ => ((), [0], t)
  sumcheckVerifyWithoutEvaluation := fun t _ _ _ => Except.ok (⟨[0], 0⟩, t)
  computeEvaluationVector := fun pt => pt
  evaluatePreResultMles := fun _ _ => []
  foldPreResultMles := fun _ _ => []
  getGenerators := fun m _ => List.replicate m 0
  ipCreate := fun _ _ _ _ _ => ()
  ipVerify := fun _ _ _ _ _ _ => Except.ok ()
  resultEvaluate := fun _ _ => some []
  sumcheckMleEvaluationsNew := fun _ _ _ _ _ => ()
  verificationBuilderNew := fun _ _ _ _ => ()
  verifierEvaluate := fun _ _ b => b
  builderSumcheckEvaluation := fun _ => 0
  builderFoldedPreResultCommitment := fun _ => 0
  builderFoldedPreResultEvaluation := fun _ => 0
  makeSchema := fun _ => ()
  intoQueryResult := fun _ _ => ()
  polyEvalAtPoint := fun _ _ => 0
  ipCommit := fun _ _ => 0
  ipEval := fun _ _ => 0

/-- Proof counts used by the concrete witnesses: one sumcheck variable, no
intermediate or anchored MLEs, no result columns. -/
def toyCounts : ProofCounts :=
  ⟨1, 2, 2, 0, 0, 0⟩

/-- Empty provable result matching `toyCounts`. -/
def toyResult : ProvableQueryResult :=
  ⟨0, [], []⟩

/-- Honest proof over `toyEnv` (the output of `QueryProof.new` there). -/
def toyProof : QueryProof toyEnv :=
  ⟨[], (), [], ()⟩


/-- Decompression of a commitment list fails exactly when some commitment
fails to decompress. -/
theorem decompressAll_eq_none_iff (E : QueryProofEnv) (l : List E.Compressed) :
    decompressAll E l = none ↔ ∃ c ∈ l, E.decompress c = none := by
  induction l with
  | nil => simp [decompressAll]
  | cons c cs ih =>
    cases hc : E.decompress c with
    | none =>
      simp only [decompressAll, hc]
      exact iff_of_true trivial ⟨c, List.mem_cons_self c cs, hc⟩
    | some p =>
      cases hcs : decompressAll E cs with
      | none =>
        simp only [decompressAll, hc, hcs]
        constructor
        · intro _
          rcases ih.mp hcs with ⟨c', h1, h2⟩
          exact ⟨c', List.mem_cons_of_mem c h1, h2⟩
        · intro _; trivial
      | some ps =>
        simp only [decompressAll, hc, hcs]
        constructor
        · intro h; exact absurd h (by simp)
        · rintro ⟨c', hmem, hnone⟩
          rcases List.mem_cons.mp hmem with rfl | hmem'
          · exact absurd hc (by simp [hnone])
          · have : decompressAll E cs = none := ih.mpr ⟨c', hmem', hnone⟩
            simp [this] at hcs

/-- C3: when the sizes disagree (wrong result column count, wrong number of
commitments, or wrong number of pre-result MLE evaluations), `verify`
returns `VerificationError`.  The statement quantifies over the entire
collaborator environment `E`, so the conclusion holds whatever the
decompression, transcript, sumcheck, generator-derivation and inner-product
functions do: none of them is consulted on this path. -/
theorem verify_size_check_fails_closed (E : QueryProofEnv)
    (proof : QueryProof E) (expr : E.QueryExprT)
    (accessor : E.CommitmentAccessorT) (counts : ProofCounts)
    (result : ProvableQueryResult)
    (hk : counts.sumcheck_variables ≠ 0)
    (h : result.num_columns ≠ counts.result_columns
       ∨ proof.commitments.length ≠ counts.intermediate_mles
       ∨ proof.pre_result_mle_evaluations.length
           ≠ counts.intermediate_mles + counts.anchored_mles) :
    QueryProof.verify E proof expr accessor counts result
      = VerifyOutcome.err ProofError.VerificationError := by
  have hs : proof.validate_sizes counts result = false := by
    rcases h with h | h | h <;> simp [QueryProof.validate_sizes, h]
  simp [QueryProof.verify, hk, hs]

/-- Witness for C3: a proof carrying no commitments against counts
demanding one intermediate MLE is rejected. -/
theorem verify_size_check_fails_closed_witness :
    QueryProof.verify toyEnv toyProof () () ⟨1, 2, 2, 1, 0, 0⟩ toyResult
      = VerifyOutcome.err ProofError.VerificationError :=
  verify_size_check_fails_closed toyEnv toyProof () () ⟨1, 2, 2, 1, 0, 0⟩
    toyResult (by decide) (Or.inr (Or.inl (by decide)))

/-- C4: past the size check, an undecompressable commitment makes `verify`
return `VerificationError` (an error, not a panic), and `verify` proceeds to
the post-decompression stage exactly when every commitment decompresses. -/
theorem verify_decompression_rejection (E : QueryProofEnv)
    (proof : QueryProof E) (expr : E.QueryExprT)
    (accessor : E.CommitmentAccessorT) (counts : ProofCounts)
    (result : ProvableQueryResult)
    (hk : counts.sumcheck_variables ≠ 0)
    (hs : proof.validate_sizes counts result = true) :
    ((∃ c ∈ proof.commitments, E.decompress c = none) →
      QueryProof.verify E proof expr accessor counts result
        = VerifyOutcome.err ProofError.VerificationError)
    ∧ (∀ dc, decompressAll E proof.commitments = some dc →
      QueryProof.verify E proof expr accessor counts result
        = verifyDecompressed E proof expr accessor counts result dc) := by
  constructor
  · intro hex
    have hd : decompressAll E proof.commitments = none :=
      (decompressAll_eq_none_iff E proof.commitments).mpr hex
    simp [QueryProof.verify, hk, hs, hd]
  · intro dc hd
    simp [QueryProof.verify, hk, hs, hd]

/-- Witness for C4: a proof whose only commitment is the invalid encoding
(`none`) passes the size check and is rejected with `VerificationError`. -/
theorem verify_decompression_rejection_witness :
    ((∃ c ∈ (⟨[none], (), [(0 : Int)], ()⟩ : QueryProof toyEnv).commitments,
        toyEnv.decompress c = none) →
      QueryProof.verify toyEnv ⟨[none], (), [(0 : Int)], ()⟩ () ()
          ⟨1, 2, 2, 1, 0, 0⟩ toyResult
        = VerifyOutcome.err ProofError.VerificationError)
    ∧ (∀ dc, decompressAll toyEnv
          (⟨[none], (), [(0 : Int)], ()⟩ : QueryProof toyEnv).commitments
          = some dc →
      QueryProof.verify toyEnv ⟨[none], (), [(0 : Int)], ()⟩ () ()
          ⟨1, 2, 2, 1, 0, 0⟩ toyResult
        = verifyDecompressed toyEnv ⟨[none], (), [(0 : Int)], ()⟩ () ()
            ⟨1, 2, 2, 1, 0, 0⟩ toyResult dc) :=
  verify_decompression_rejection toyEnv ⟨[none], (), [(0 : Int)], ()⟩ () ()
    ⟨1, 2, 2, 1, 0, 0⟩ toyResult (by decide) (by decide)

/-- C8: every run of `verify` is a panic, the single collapsed error
`VerificationError`, or a success; a caller observing an error learns only
that verification failed, never which check failed. -/
theorem verify_single_error_kind (E : QueryProofEnv) (proof : QueryProof E)
    (expr : E.QueryExprT) (accessor : E.CommitmentAccessorT)
    (counts : ProofCounts) (result : ProvableQueryResult) :
    QueryProof.verify E proof expr accessor counts result = VerifyOutcome.panic
    ∨ QueryProof.verify E proof expr accessor counts result
        = VerifyOutcome.err ProofError.VerificationError
    ∨ ∃ r, QueryProof.verify E proof expr accessor counts result
        = VerifyOutcome.ok r := by
  cases hv : QueryProof.verify E proof expr accessor counts result with
  | panic => exact Or.inl rfl
  | err e => cases e; exact Or.inr (Or.inl rfl)
  | ok r => exact Or.inr (Or.inr ⟨r, rfl⟩)

/-- C9: `verify` is a pure function of its five inputs; two invocations on
identical inputs (however the equal values were obtained) return identical
outcomes, so a failed verification re-attempted with the same inputs fails
the same way. -/
theorem verify_deterministic (E : QueryProofEnv) (p₁ p₂ : QueryProof E)
    (x₁ x₂ : E.QueryExprT) (a₁ a₂ : E.CommitmentAccessorT)
    (c₁ c₂ : ProofCounts) (r₁ r₂ : ProvableQueryResult)
    (hp : p₁ = p₂) (hx : x₁ = x₂) (ha : a₁ = a₂) (hc : c₁ = c₂)
    (hr : r₁ = r₂) :
    QueryProof.verify E p₁ x₁ a₁ c₁ r₁ = QueryProof.verify E p₂ x₂ a₂ c₂ r₂ := by
  rw [hp, hx, ha, hc, hr]

/-- Witness for C9 at concrete toy inputs. -/
theorem verify_deterministic_witness :
    QueryProof.verify toyEnv toyProof () () toyCounts toyResult
      = QueryProof.verify toyEnv toyProof () () toyCounts toyResult :=
  verify_deterministic toyEnv toyProof toyProof () () () () toyCounts
    toyCounts toyResult toyResult rfl rfl rfl rfl rfl

/-- C10: with `counts.sumcheck_variables = 0`, `verify` panics (failed entry
assertion) before any validation: the outcome is a panic for every proof and
result, including ones the size check would reject, and is in particular not
the collapsed `VerificationError`; `new` panics on the same condition. -/
theorem verify_panics_on_zero_sumcheck_variables (E : QueryProofEnv)
    (proof : QueryProof E) (expr : E.QueryExprT) (daccessor : E.DataAccessorT)
    (caccessor : E.CommitmentAccessorT) (counts : ProofCounts)
    (result : ProvableQueryResult) (h : counts.sumcheck_variables = 0) :
    QueryProof.verify E proof expr caccessor counts result = VerifyOutcome.panic
    ∧ QueryProof.verify E proof expr caccessor counts result
        ≠ VerifyOutcome.err ProofError.VerificationError
    ∧ QueryProof.new E expr daccessor counts = none := by
  have hv : QueryProof.verify E proof expr caccessor counts result
      = VerifyOutcome.panic := by
    simp [QueryProof.verify, h]
  refine ⟨hv, ?_, ?_⟩
  · rw [hv]; intro hh; exact VerifyOutcome.noConfusion hh
  · simp [QueryProof.new, h]

/-- Witness for C10: zero sumcheck variables panic at concrete toy inputs. -/
theorem verify_panics_on_zero_sumcheck_variables_witness :
    QueryProof.verify toyEnv toyProof () () ⟨0, 2, 2, 0, 0, 0⟩ toyResult
        = VerifyOutcome.panic
    ∧ QueryProof.verify toyEnv toyProof () () ⟨0, 2, 2, 0, 0, 0⟩ toyResult
        ≠ VerifyOutcome.err ProofError.VerificationError
    ∧ QueryProof.new toyEnv () () ⟨0, 2, 2, 0, 0, 0⟩ = none :=
  verify_panics_on_zero_sumcheck_variables toyEnv toyProof () () ()
    ⟨0, 2, 2, 0, 0, 0⟩ toyResult rfl

/-- C5: prover and verifier build their initial transcripts identically — a
fresh transcript under the `QueryProof` label, then the compressed
commitments, the result's column indexes and the result's raw data, in that
order, before any challenge is drawn — and both draw
`SumcheckRandomScalars::count(counts)` challenge scalars under the
`QuerySumcheckChallenge` label; so for equal commitments, result indexes and
result data the two sides derive equal challenges and equal post-challenge
transcript states, and the verifier's challenges depend on the proof only
through its `commitments` field. -/
theorem transcript_symmetry (E : QueryProofEnv) (proof : QueryProof E)
    (result : ProvableQueryResult) (counts : ProofCounts)
    (commitments : List E.Compressed) (idx bytes : List Nat)
    (hc : proof.commitments = commitments) (hi : result.indexes = idx)
    (hd : result.data = bytes) :
    make_transcript E commitments idx bytes
      = [TEntry.init MessageLabel.QueryProof,
         TEntry.points MessageLabel.QueryCommit commitments,
         TEntry.message MessageLabel.QueryResultIndexes (u64SliceToBytes idx),
         TEntry.message MessageLabel.QueryResultData bytes]
    ∧ verifierSumcheckChallenges E proof result counts
        = proverSumcheckChallenges E commitments idx bytes counts
    ∧ verifierSumcheckTranscript E proof result counts
        = proverSumcheckTranscript E commitments idx bytes counts
    ∧ (∀ p' : QueryProof E, p'.commitments = proof.commitments →
        verifierSumcheckChallenges E p' result counts
          = verifierSumcheckChallenges E proof result counts) := by
  subst hc hi hd
  refine ⟨rfl, rfl, rfl, fun p' hp => ?_⟩
  simp [verifierSumcheckChallenges, hp]

/-- Witness for C5 at concrete toy inputs. -/
theorem transcript_symmetry_witness :
    make_transcript toyEnv toyProof.commitments toyResult.indexes toyResult.data
      = [TEntry.init MessageLabel.QueryProof,
         TEntry.points MessageLabel.QueryCommit toyProof.commitments,
         TEntry.message MessageLabel.QueryResultIndexes
           (u64SliceToBytes toyResult.indexes),
         TEntry.message MessageLabel.QueryResultData toyResult.data]
    ∧ verifierSumcheckChallenges toyEnv toyProof toyResult toyCounts
        = proverSumcheckChallenges toyEnv toyProof.commitments
            toyResult.indexes toyResult.data toyCounts
    ∧ verifierSumcheckTranscript toyEnv toyProof toyResult toyCounts
        = proverSumcheckTranscript toyEnv toyProof.commitments
            toyResult.indexes toyResult.data toyCounts
    ∧ (∀ p' : QueryProof toyEnv, p'.commitments = toyProof.commitments →
        verifierSumcheckChallenges toyEnv p' toyResult toyCounts
          = verifierSumcheckChallenges toyEnv toyProof toyResult toyCounts) :=
  transcript_symmetry toyEnv toyProof toyResult toyCounts
    toyProof.commitments toyResult.indexes toyResult.data rfl rfl rfl

/-- C6: past sizes and decompression, `verify` invokes the sumcheck
sub-protocol's verify-without-evaluation with the polynomial shape
`(counts.sumcheck_max_multiplicands, counts.sumcheck_variables)` and a
claimed sum of zero, on the post-challenge transcript; an error from that
call is `verify`'s result, and on success `verify` continues as
`verifyWithSubclaim`, which threads the evaluation vector computed from the
subclaim's `evaluation_point` through every later step (in particular the
result-column evaluation, as the last conjunct records). -/
theorem verify_sumcheck_subprotocol_contract (E : QueryProofEnv)
    (proof : QueryProof E) (expr : E.QueryExprT)
    (accessor : E.CommitmentAccessorT) (counts : ProofCounts)
    (result : ProvableQueryResult) (dc : List E.Point)
    (hk : counts.sumcheck_variables ≠ 0)
    (hs : proof.validate_sizes counts result = true)
    (hd : decompressAll E proof.commitments = some dc) :
    (∀ e, E.sumcheckVerifyWithoutEvaluation
        (verifierSumcheckTranscript E proof result counts)
        ⟨counts.sumcheck_max_multiplicands, counts.sumcheck_variables⟩
        E.scalarZero proof.sumcheck_proof = Except.error e →
      QueryProof.verify E proof expr accessor counts result
        = VerifyOutcome.err e)
    ∧ (∀ sc t1, E.sumcheckVerifyWithoutEvaluation
        (verifierSumcheckTranscript E proof result counts)
        ⟨counts.sumcheck_max_multiplicands, counts.sumcheck_variables⟩
        E.scalarZero proof.sumcheck_proof = Except.ok (sc, t1) →
      QueryProof.verify E proof expr accessor counts result
        = verifyWithSubclaim E proof expr accessor counts result dc
            (verifierSumcheckChallenges E proof result counts) sc t1)
    ∧ (∀ sc t1, E.sumcheckVerifyWithoutEvaluation
        (verifierSumcheckTranscript E proof result counts)
        ⟨counts.sumcheck_max_multiplicands, counts.sumcheck_variables⟩
        E.scalarZero proof.sumcheck_proof = Except.ok (sc, t1) →
      E.resultEvaluate result (E.computeEvaluationVector sc.evaluation_point)
          = none →
      QueryProof.verify E proof expr accessor counts result
        = VerifyOutcome.err ProofError.VerificationError) := by
  have hv : QueryProof.verify E proof expr accessor counts result
      = verifyDecompressed E proof expr accessor counts result dc := by
    simp [QueryProof.verify, hk, hs, hd]
  refine ⟨fun e he => ?_, fun sc t1 hsc => ?_, fun sc t1 hsc hre => ?_⟩
  · rw [hv]; simp [verifyDecompressed, he]
  · rw [hv]; simp [verifyDecompressed, hsc]
  · rw [hv]; simp [verifyDecompressed, hsc, verifyWithSubclaim, hre]

/-- Witness for C6 at concrete toy inputs. -/
theorem verify_sumcheck_subprotocol_contract_witness :
    (∀ e, toyEnv.sumcheckVerifyWithoutEvaluation
        (verifierSumcheckTranscript toyEnv toyProof toyResult toyCounts)
        ⟨toyCounts.sumcheck_max_multiplicands, toyCounts.sumcheck_variables⟩
        toyEnv.scalarZero toyProof.sumcheck_proof = Except.error e →
      QueryProof.verify toyEnv toyProof () () toyCounts toyResult
        = VerifyOutcome.err e)
    ∧ (∀ sc t1, toyEnv.sumcheckVerifyWithoutEvaluation
        (verifierSumcheckTranscript toyEnv toyProof toyResult toyCounts)
        ⟨toyCounts.sumcheck_max_multiplicands, toyCounts.sumcheck_variables⟩
        toyEnv.scalarZero toyProof.sumcheck_proof = Except.ok (sc, t1) →
      QueryProof.verify toyEnv toyProof () () toyCounts toyResult
        = verifyWithSubclaim toyEnv toyProof () () toyCounts toyResult []
            (verifierSumcheckChallenges toyEnv toyProof toyResult toyCounts)
            sc t1)
    ∧ (∀ sc t1, toyEnv.sumcheckVerifyWithoutEvaluation
        (verifierSumcheckTranscript toyEnv toyProof toyResult toyCounts)
        ⟨toyCounts.sumcheck_max_multiplicands, toyCounts.sumcheck_variables⟩
        toyEnv.scalarZero toyProof.sumcheck_proof = Except.ok (sc, t1) →
      toyEnv.resultEvaluate toyResult
          (toyEnv.computeEvaluationVector sc.evaluation_point) = none →
      QueryProof.verify toyEnv toyProof () () toyCounts toyResult
        = VerifyOutcome.err ProofError.VerificationError) :=
  verify_sumcheck_subprotocol_contract toyEnv toyProof () () toyCounts
    toyResult [] (by decide) (by decide) rfl

/-- C2: once the verification builder has been filled, `verify` returns
`VerificationError` whenever the builder's recomputed sumcheck evaluation
differs from the subclaim's `expected_evaluation`, and reaches the
inner-product stage (`verifyEvaluationProof`, and hence any `Ok` result)
only when the two are equal. -/
theorem verify_algebraic_binding_check (E : QueryProofEnv)
    (proof : QueryProof E) (expr : E.QueryExprT)
    (accessor : E.CommitmentAccessorT) (counts : ProofCounts)
    (result : ProvableQueryResult) (dc : List E.Point)
    (sc : Subclaim E.Scalar) (t1 : E.Transcript) (revals : List E.Scalar)
    (b : E.VerificationBuilderT)
    (hk : counts.sumcheck_variables ≠ 0)
    (hs : proof.validate_sizes counts result = true)
    (hd : decompressAll E proof.commitments = some dc)
    (hsc : E.sumcheckVerifyWithoutEvaluation
        (verifierSumcheckTranscript E proof result counts)
        ⟨counts.sumcheck_max_multiplicands, counts.sumcheck_variables⟩
        E.scalarZero proof.sumcheck_proof = Except.ok (sc, t1))
    (hre : E.resultEvaluate result
        (E.computeEvaluationVector sc.evaluation_point) = some revals)
    (hb : b = verifierBuilder E expr accessor counts dc
        (verifierSumcheckChallenges E proof result counts)
        (E.challenge
          (t1 ++ [TEntry.scalars MessageLabel.QueryMleEvaluations
            proof.pre_result_mle_evaluations])
          MessageLabel.QueryMleEvaluationsChallenge
          proof.pre_result_mle_evaluations.length)
        proof.pre_result_mle_evaluations revals
        (E.computeEvaluationVector sc.evaluation_point)) :
    (E.builderSumcheckEvaluation b ≠ sc.expected_evaluation →
      QueryProof.verify E proof expr accessor counts result
        = VerifyOutcome.err ProofError.VerificationError)
    ∧ (E.builderSumcheckEvaluation b = sc.expected_evaluation →
      QueryProof.verify E proof expr accessor counts result
        = verifyEvaluationProof E proof counts result b
            (t1 ++ [TEntry.scalars MessageLabel.QueryMleEvaluations
                proof.pre_result_mle_evaluations]
              ++ [TEntry.challenge MessageLabel.QueryMleEvaluationsChallenge
                proof.pre_result_mle_evaluations.length])
            (E.computeEvaluationVector sc.evaluation_point)) := by
  subst hb
  have hv : QueryProof.verify E proof expr accessor counts result
      = verifyWithSubclaim E proof expr accessor counts result dc
          (verifierSumcheckChallenges E proof result counts) sc t1 := by
    simp [QueryProof.verify, hk, hs, hd, verifyDecompressed, hsc]
  constructor
  · intro hne
    rw [hv]
    simp only [verifyWithSubclaim, hre]
    cases hdd : E.scalarDecEq
        (E.builderSumcheckEvaluation (verifierBuilder E expr accessor counts dc
          (verifierSumcheckChallenges E proof result counts)
          (E.challenge
            (t1 ++ [TEntry.scalars MessageLabel.QueryMleEvaluations
              proof.pre_result_mle_evaluations])
            MessageLabel.QueryMleEvaluationsChallenge
            proof.pre_result_mle_evaluations.length)
          proof.pre_result_mle_evaluations revals
          (E.computeEvaluationVector sc.evaluation_point)))
        sc.expected_evaluation with
    | isTrue h => exact absurd h hne
    | isFalse h => rfl
  · intro heq
    rw [hv]
    simp only [verifyWithSubclaim, hre]
    cases hdd : E.scalarDecEq
        (E.builderSumcheckEvaluation (verifierBuilder E expr accessor counts dc
          (verifierSumcheckChallenges E proof result counts)
          (E.challenge
            (t1 ++ [TEntry.scalars MessageLabel.QueryMleEvaluations
              proof.pre_result_mle_evaluations])
            MessageLabel.QueryMleEvaluationsChallenge
            proof.pre_result_mle_evaluations.length)
          proof.pre_result_mle_evaluations revals
          (E.computeEvaluationVector sc.evaluation_point)))
        sc.expected_evaluation with
    | isTrue h => rfl
    | isFalse h => exact absurd heq h

/-- Witness for C2 at concrete toy inputs. -/
theorem verify_algebraic_binding_check_witness :
    ((toyEnv.builderSumcheckEvaluation () ≠ (0 : Int) →
      QueryProof.verify toyEnv toyProof () () toyCounts toyResult
        = VerifyOutcome.err ProofError.VerificationError)
    ∧ (toyEnv.builderSumcheckEvaluation () = (0 : Int) →
      QueryProof.verify toyEnv toyProof () () toyCounts toyResult
        = verifyEvaluationProof toyEnv toyProof toyCounts toyResult ()
            ((verifierSumcheckTranscript toyEnv toyProof toyResult toyCounts
                ++ [TEntry.scalars MessageLabel.QueryMleEvaluations
                  toyProof.pre_result_mle_evaluations])
              ++ [TEntry.challenge MessageLabel.QueryMleEvaluationsChallenge
                toyProof.pre_result_mle_evaluations.length])
            (toyEnv.computeEvaluationVector [0]))) :=
  verify_algebraic_binding_check toyEnv toyProof () () toyCounts toyResult
    [] ⟨[0], 0⟩ (verifierSumcheckTranscript toyEnv toyProof toyResult toyCounts)
    [] () (by decide) (by decide) rfl rfl rfl rfl

/-- Index `n` of a list of length `n + 1` is its last element. -/
theorem getD_eq_getLast?_of_length {P : Type} (l : List P) (n : Nat) (d : P)
    (h : l.length = n + 1) : l.getLast? = some (l.getD n d) := by
  have hn : n < l.length := by omega
  rw [List.getLast?_eq_getElem?, h]
  simp [List.getD_eq_getElem?_getD, List.getElem?_eq_getElem hn]

/-- C7: prover and verifier derive the same generator basis — the
deterministic derivation of `2 ^ counts.sumcheck_variables + 1` elements
starting at offset 0 — whose element at index `n = 2 ^ sumcheck_variables`
is its last element (the product generator), the first `n` being the vector
generators; and the verifier's inner-product stage checks the proof against
`expected_commit = folded_pre_result_commitment + product_g *
folded_pre_result_evaluation`. -/
theorem generator_derivation_split (E : QueryProofEnv) (counts : ProofCounts)
    (proof : QueryProof E) (result : ProvableQueryResult)
    (builder : E.VerificationBuilderT) (t : E.Transcript) (v : List E.Scalar)
    (hlen : ∀ m off, (E.getGenerators m off).length = m) :
    proverGenerators E counts = verifierGenerators E counts
    ∧ proverGenerators E counts
        = E.getGenerators (2 ^ counts.sumcheck_variables + 1) 0
    ∧ (proverGenerators E counts).length = 2 ^ counts.sumcheck_variables + 1
    ∧ (verifierGenerators E counts).getLast?
        = some ((verifierGenerators E counts).getD
            (2 ^ counts.sumcheck_variables) E.pointIdentity)
    ∧ verifyEvaluationProof E proof counts result builder t v
        = (match E.ipVerify t
              (E.pointAdd (E.builderFoldedPreResultCommitment builder)
                (E.smul ((verifierGenerators E counts).getD
                    (2 ^ counts.sumcheck_variables) E.pointIdentity)
                  (E.builderFoldedPreResultEvaluation builder)))
              ((verifierGenerators E counts).getD
                (2 ^ counts.sumcheck_variables) E.pointIdentity)
              ((verifierGenerators E counts).take
                (2 ^ counts.sumcheck_variables))
              v proof.evaluation_proof with
           | Except.error e => VerifyOutcome.err e
           | Except.ok _ => VerifyOutcome.ok
               (E.intoQueryResult result
                 (E.makeSchema counts.result_columns))) := by
  refine ⟨rfl, rfl, hlen _ _, ?_, rfl⟩
  exact getD_eq_getLast?_of_length (verifierGenerators E counts)
    (2 ^ counts.sumcheck_variables) E.pointIdentity (hlen _ _)

/-- Witness for C7 at concrete toy inputs. -/
theorem generator_derivation_split_witness :
    proverGenerators toyEnv toyCounts = verifierGenerators toyEnv toyCounts
    ∧ proverGenerators toyEnv toyCounts
        = toyEnv.getGenerators (2 ^ toyCounts.sumcheck_variables + 1) 0
    ∧ (proverGenerators toyEnv toyCounts).length
        = 2 ^ toyCounts.sumcheck_variables + 1
    ∧ (verifierGenerators toyEnv toyCounts).getLast?
        = some ((verifierGenerators toyEnv toyCounts).getD
            (2 ^ toyCounts.sumcheck_variables) toyEnv.pointIdentity)
    ∧ verifyEvaluationProof toyEnv toyProof toyCounts toyResult () [] []
        = (match toyEnv.ipVerify []
              (toyEnv.pointAdd (toyEnv.builderFoldedPreResultCommitment ())
                (toyEnv.smul ((verifierGenerators toyEnv toyCounts).getD
                    (2 ^ toyCounts.sumcheck_variables) toyEnv.pointIdentity)
                  (toyEnv.builderFoldedPreResultEvaluation ())))
              ((verifierGenerators toyEnv toyCounts).getD
                (2 ^ toyCounts.sumcheck_variables) toyEnv.pointIdentity)
              ((verifierGenerators toyEnv toyCounts).take
                (2 ^ toyCounts.sumcheck_variables))
              [] toyProof.evaluation_proof with
           | Except.error e => VerifyOutcome.err e
           | Except.ok _ => VerifyOutcome.ok
               (toyEnv.intoQueryResult toyResult
                 (toyEnv.makeSchema toyCounts.result_columns))) :=
  generator_derivation_split toyEnv toyCounts toyProof toyResult () [] []
    (fun m off => by simp [toyEnv])

set_option maxRecDepth 8000 in
/-- C1 (completeness): if `new` produced `(proof, result)` under counts
consistent with the accessor state, and the external collaborators satisfy
their spec contracts — valid prover commitments, sumcheck completeness
(`verify_without_evaluation` accepts a created proof and returns its
evaluation point with the polynomial's true evaluation), result
evaluability, the verification builder's mirror identities (it recomputes
the composite polynomial's evaluation and the folded commitment/evaluation
of the prover's folded MLE), and inner-product completeness — then `verify`
with the same `expr` and `counts` accepts, returning the decoded result. -/
theorem verify_completeness (E : QueryProofEnv) (expr : E.QueryExprT)
    (daccessor : E.DataAccessorT) (caccessor : E.CommitmentAccessorT)
    (counts : ProofCounts) (proof : QueryProof E)
    (result : ProvableQueryResult) (dc : List E.Point)
    (hk : counts.sumcheck_variables ≠ 0)
    (hnew : QueryProof.new E expr daccessor counts = some (proof, result))
    (hnc : (proverResult E expr daccessor counts).num_columns
      = counts.result_columns)
    (hcm : (proverCommitments E expr daccessor counts).length
      = counts.intermediate_mles)
    (hpm : ∀ v, (E.evaluatePreResultMles
        (proverBuilder E expr daccessor counts) v).length
      = counts.intermediate_mles + counts.anchored_mles)
    (hdc : decompressAll E (proverCommitments E expr daccessor counts)
      = some dc)
    (hsc : ∀ (t : E.Transcript) (poly : E.Poly),
      E.sumcheckVerifyWithoutEvaluation t
        ⟨counts.sumcheck_max_multiplicands, counts.sumcheck_variables⟩
        E.scalarZero (E.sumcheckCreate t poly).1
      = Except.ok (⟨(E.sumcheckCreate t poly).2.1,
          E.polyEvalAtPoint poly (E.sumcheckCreate t poly).2.1⟩,
          (E.sumcheckCreate t poly).2.2))
    (hres : ∀ v, ∃ revals,
      E.resultEvaluate (proverResult E expr daccessor counts) v = some revals)
    (halg : ∀ (rs evalRs pt revals : List E.Scalar),
      E.builderSumcheckEvaluation (verifierBuilder E expr caccessor counts dc
        rs evalRs
        (E.evaluatePreResultMles (proverBuilder E expr daccessor counts)
          (E.computeEvaluationVector pt))
        revals (E.computeEvaluationVector pt))
      = E.polyEvalAtPoint
          (E.makeSumcheckPolynomial (proverBuilder E expr daccessor counts)
            counts rs) pt)
    (hfoldc : ∀ (rs evalRs pt revals : List E.Scalar),
      E.builderFoldedPreResultCommitment (verifierBuilder E expr caccessor
        counts dc rs evalRs
        (E.evaluatePreResultMles (proverBuilder E expr daccessor counts)
          (E.computeEvaluationVector pt))
        revals (E.computeEvaluationVector pt))
      = E.ipCommit ((verifierGenerators E counts).take
            (2 ^ counts.sumcheck_variables))
          (E.foldPreResultMles (proverBuilder E expr daccessor counts)
            evalRs))
    (hfolde : ∀ (rs evalRs pt revals : List E.Scalar),
      E.builderFoldedPreResultEvaluation (verifierBuilder E expr caccessor
        counts dc rs evalRs
        (E.evaluatePreResultMles (proverBuilder E expr daccessor counts)
          (E.computeEvaluationVector pt))
        revals (E.computeEvaluationVector pt))
      = E.ipEval
          (E.foldPreResultMles (proverBuilder E expr daccessor counts) evalRs)
          (E.computeEvaluationVector pt))
    (hip : ∀ (t : E.Transcript) (pg : E.Point) (gs : List E.Point)
        (a v : List E.Scalar),
      E.ipVerify t (E.pointAdd (E.ipCommit gs a) (E.smul pg (E.ipEval a v)))
        pg gs v (E.ipCreate t pg gs a v) = Except.ok ()) :
    QueryProof.verify E proof expr caccessor counts result
      = VerifyOutcome.ok
          (E.intoQueryResult result (E.makeSchema counts.result_columns)) := by
  rw [QueryProof.new, if_neg hk, Option.some_inj] at hnew
  obtain ⟨hp, hr⟩ := Prod.mk.inj hnew
  subst hp
  subst hr
  have hvs : (honestProof E expr daccessor counts).validate_sizes counts
      (proverResult E expr daccessor counts) = true := by
    simp only [QueryProof.validate_sizes, honestProof, proverPreResultEvals]
    simp [hnc, hcm, hpm]
  have hdc2 : decompressAll E
      (honestProof E expr daccessor counts).commitments = some dc := hdc
  rw [QueryProof.verify, if_neg hk, if_pos hvs, hdc2]
  show verifyDecompressed E (honestProof E expr daccessor counts) expr
      caccessor counts (proverResult E expr daccessor counts) dc
    = VerifyOutcome.ok (E.intoQueryResult
        (proverResult E expr daccessor counts)
        (E.makeSchema counts.result_columns))
  have hrun : E.sumcheckCreate (proverT1 E expr daccessor counts)
      (proverPoly E expr daccessor counts)
      = proverSumcheckRun E expr daccessor counts := rfl
  have h4 := hsc (proverT1 E expr daccessor counts)
    (proverPoly E expr daccessor counts)
  rw [hrun] at h4
  have et : verifierSumcheckTranscript E (honestProof E expr daccessor counts)
      (proverResult E expr daccessor counts) counts
      = proverT1 E expr daccessor counts := rfl
  have es : (honestProof E expr daccessor counts).sumcheck_proof
      = (proverSumcheckRun E expr daccessor counts).1 := rfl
  simp only [verifyDecompressed, et, es, h4]
  simp only [verifyWithSubclaim]
  have f1 : (honestProof E expr daccessor counts).pre_result_mle_evaluations
      = proverPreResultEvals E expr daccessor counts := rfl
  rw [f1]
  have f2 : verifierSumcheckChallenges E (honestProof E expr daccessor counts)
      (proverResult E expr daccessor counts) counts
      = proverRandomScalars E expr daccessor counts := rfl
  rw [f2]
  have f3 : (proverSumcheckRun E expr daccessor counts).2.2
      ++ [TEntry.scalars MessageLabel.QueryMleEvaluations
            (proverPreResultEvals E expr daccessor counts)]
      = proverT3 E expr daccessor counts := rfl
  rw [f3]
  have f4 : E.challenge (proverT3 E expr daccessor counts)
      MessageLabel.QueryMleEvaluationsChallenge
      (proverPreResultEvals E expr daccessor counts).length
      = proverFoldRandomScalars E expr daccessor counts := rfl
  rw [f4]
  have f5 : proverT3 E expr daccessor counts
      ++ [TEntry.challenge MessageLabel.QueryMleEvaluationsChallenge
            (proverPreResultEvals E expr daccessor counts).length]
      = proverT4 E expr daccessor counts := rfl
  rw [f5]
  have f6 : E.computeEvaluationVector
      (proverSumcheckRun E expr daccessor counts).2.1
      = proverEvaluationVec E expr daccessor counts := rfl
  rw [f6]
  obtain ⟨revals, hrev⟩ := hres (proverEvaluationVec E expr daccessor counts)
  simp only [hrev]
  have halg2 : E.builderSumcheckEvaluation (verifierBuilder E expr caccessor
      counts dc (proverRandomScalars E expr daccessor counts)
      (proverFoldRandomScalars E expr daccessor counts)
      (proverPreResultEvals E expr daccessor counts) revals
      (proverEvaluationVec E expr daccessor counts))
      = E.polyEvalAtPoint (proverPoly E expr daccessor counts)
          (proverSumcheckRun E expr daccessor counts).2.1 :=
    halg (proverRandomScalars E expr daccessor counts)
      (proverFoldRandomScalars E expr daccessor counts)
      ((proverSumcheckRun E expr daccessor counts).2.1) revals
  split
  · next hne heq => exact absurd halg2 hne
  · next heq hq =>
    simp only [verifyEvaluationProof]
    have f7 : verifierGenerators E counts = proverGenerators E counts := rfl
    rw [f7]
    have f8 : (proverGenerators E counts).getD
        (2 ^ counts.sumcheck_variables) E.pointIdentity
        = proverProductG E counts := rfl
    rw [f8]
    have hfc2 : E.builderFoldedPreResultCommitment (verifierBuilder E expr
        caccessor counts dc (proverRandomScalars E expr daccessor counts)
        (proverFoldRandomScalars E expr daccessor counts)
        (proverPreResultEvals E expr daccessor counts) revals
        (proverEvaluationVec E expr daccessor counts))
        = E.ipCommit ((proverGenerators E counts).take
              (2 ^ counts.sumcheck_variables))
            (proverFoldedMle E expr daccessor counts) :=
      hfoldc (proverRandomScalars E expr daccessor counts)
        (proverFoldRandomScalars E expr daccessor counts)
        ((proverSumcheckRun E expr daccessor counts).2.1) revals
    have hfe2 : E.builderFoldedPreResultEvaluation (verifierBuilder E expr
        caccessor counts dc (proverRandomScalars E expr daccessor counts)
        (proverFoldRandomScalars E expr daccessor counts)
        (proverPreResultEvals E expr daccessor counts) revals
        (proverEvaluationVec E expr daccessor counts))
        = E.ipEval (proverFoldedMle E expr daccessor counts)
            (proverEvaluationVec E expr daccessor counts) :=
      hfolde (proverRandomScalars E expr daccessor counts)
        (proverFoldRandomScalars E expr daccessor counts)
        ((proverSumcheckRun E expr daccessor counts).2.1) revals
    rw [hfc2, hfe2]
    have f9 : (honestProof E expr daccessor counts).evaluation_proof
        = E.ipCreate (proverT4 E expr daccessor counts)
            (proverProductG E counts)
            ((proverGenerators E counts).take
              (2 ^ counts.sumcheck_variables))
            (proverFoldedMle E expr daccessor counts)
            (proverEvaluationVec E expr daccessor counts) := rfl
    rw [f9]
    have hip2 := hip (proverT4 E expr daccessor counts)
      (proverProductG E counts)
      ((proverGenerators E counts).take (2 ^ counts.sumcheck_variables))
      (proverFoldedMle E expr daccessor counts)
      (proverEvaluationVec E expr daccessor counts)
    rw [hip2]

/-- Witness for C1: over the toy environment, the honest proof produced by
`new` for `toyCounts` is accepted by `verify`. -/
theorem verify_completeness_witness :
    QueryProof.verify toyEnv toyProof () () toyCounts toyResult
      = VerifyOutcome.ok (toyEnv.intoQueryResult toyResult
          (toyEnv.makeSchema toyCounts.result_columns)) :=
  verify_completeness toyEnv () () () toyCounts toyProof toyResult []
    (by decide) rfl rfl rfl (fun v => rfl) rfl (fun t poly => rfl)
    (fun v => ⟨[], rfl⟩) (fun rs evalRs pt revals => rfl)
    (fun rs evalRs pt revals => rfl) (fun rs evalRs pt revals => rfl)
    (fun t pg gs a v => rfl)
